import Mathlib

/-!
Verification of `claude2_api/session.py` (session retrieval via a Selenium
Firefox driver).  The module is embedded shallowly: the host environment
(platform, filesystem listings, environment variables), the monitor list and
the browser driver's observable behaviour are explicit parameters gathered in
a `World`; Python exceptions become constructors of `PyErr`; each Python
function becomes a Lean function over that data.  The structure and order of
operations (profile resolution, the two `__cleanup_resources` calls, option
construction, driver launch, the `try/finally` with `driver.quit()`) follow
the source line by line.

Not modelled, because no behaviour observable through the return value or
the raised exception depends on them: the informational `print` (console
output), `driver.implicitly_wait(3)` (pure delay), and the two inner details
of `__get_firefox_webdriver` — its Windows-only `os.environ["PATH"]` patch
(mutates only the process environment before the constructor call) and its
`use_selwire` branch (never taken: `get_session_data` calls it without
`use_selwire`, whose default is `False`).  Driver construction success is
the oracle `World.launchOk`.  The filesystem is static during a call except
for the removals the cleanup itself performs.
-/

deriving instance DecidableEq for Except

namespace Session

/-- The platforms distinguished by `platform.system()` in the source:
`"Windows"`, `"Linux"`, and anything else. -/
inductive Platform where
  | windows
  | linux
  | other
deriving DecidableEq, Repr

/-- Python exceptions raised (directly or by libraries) in `session.py`. -/
inductive PyErr where
  /-- `raise RuntimeError(msg)` -/
  | runtimeError (msg : String)
  /-- `FileNotFoundError` from `os.listdir` on a missing directory -/
  | fileNotFoundError
  /-- `OSError` from `shutil.rmtree(path)` failing on `path` -/
  | osError (path : String)
  /-- `selenium.common.WebDriverException` (launch or navigation failure) -/
  | webDriverError (what : String)
  /-- `IndexError` from `screeninfo.get_monitors()[0]` on an empty list -/
  | indexError
  /-- `dataclasses.FrozenInstanceError` from assigning to a frozen dataclass -/
  | frozenInstanceError
deriving DecidableEq, Repr

/-- One entry of a directory listing (name plus `os.path.isdir` status),
used for the temp root scanned by `__cleanup_resources`. -/
structure Entry where
  name : String
  isDir : Bool
deriving DecidableEq, Repr

/-- The environment a call runs in: platform, filesystem state, environment
variables, monitors, and the observable behaviour of the Firefox driver.
`rmFails` lists the directory names whose `shutil.rmtree` raises `OSError`;
`userAgent = none` models `execute_script` returning null/undefined. -/
structure World where
  plat : Platform
  /-- does the platform-specific profile parent directory exist -/
  dirExists : Bool
  /-- `os.listdir` of the profile parent directory (when it exists) -/
  profileListing : List String
  /-- `os.listdir` of the platform's temp root (`/tmp` or `%LOCALAPPDATA%\Temp`) -/
  tempEntries : List Entry
  /-- names on which `shutil.rmtree` raises `OSError` -/
  rmFails : List String
  /-- `screeninfo.get_monitors()` as (width, height) pairs -/
  monitors : List (Nat × Nat)
  /-- does the Firefox webdriver constructor succeed -/
  launchOk : Bool
  /-- does `driver.get(url)` succeed -/
  getOk : Bool
  /-- `driver.execute_script("return navigator.userAgent")` -/
  userAgent : Option String
  /-- `driver.get_cookies()` as (name, value) pairs, in driver order -/
  cookies : List (String × String)
  /-- `os.path.expanduser("~")` -/
  home : String
  /-- `os.getenv("APPDATA")` -/
  appdata : String
deriving DecidableEq, Repr

/-- Python `str.startswith`: prefix test on the character sequence. -/
def strStartsWith (s p : String) : Bool := p.data.isPrefixOf s.data

/-- Python `str.endswith`: suffix test on the character sequence. -/
def strEndsWith (s p : String) : Bool := p.data.isSuffixOf s.data

/-- Python truthiness of a string: `""` is falsy. -/
def strFalsy (s : String) : Bool := s.data.isEmpty

/-- Python truthiness of an optional string: `None` and `""` are falsy. -/
def pyFalsy : Option String → Bool
  | none => true
  | some s => strFalsy s

/-! ### `__cleanup_resources` -/

/-- The fixed prefix list `["tmp", "rust_mozpr"]` iterated by the inner loop
of `__cleanup_resources`. -/
def tmpDirNamePrefixes : List String := ["tmp", "rust_mozpr"]

/-- The inner loop `for dirPrefix in [...]: if filename.startswith(dirPrefix)`:
does some fixed prefix start the name. -/
def matchesTmpName (filename : String) : Bool :=
  tmpDirNamePrefixes.any (fun p => strStartsWith filename p)

/-- The `for filename in os.listdir(folder_path)` loop of
`__cleanup_resources`: each entry that is a directory and matches a prefix is
removed with `shutil.rmtree`.  Returns the propagated exception (the name of
the first failing removal, if any — the source has no `try` around `rmtree`,
so the `OSError` aborts the loop) together with the entries remaining on
disk. -/
def cleanupList (fails : String → Bool) : List Entry → Option String × List Entry
  | [] => (none, [])
  | e :: rest =>
    if e.isDir && matchesTmpName e.name then
      if fails e.name then (some e.name, e :: rest)
      else cleanupList fails rest
    else
      let r := cleanupList fails rest
      (r.1, e :: r.2)

/-- `__cleanup_resources`: selects the platform temp root (the caller passes
its listing) and runs the removal loop; on an unrecognized platform it
returns immediately, touching nothing. -/
def cleanup_resources (plat : Platform) (fails : String → Bool)
    (entries : List Entry) : Option String × List Entry :=
  match plat with
  | .other => (none, entries)
  | _ => cleanupList fails entries

/-! ### Profile discovery -/

/-- `os.path.expanduser("~/.mozilla/firefox")`. -/
def linux_profile_root (home : String) : String := home ++ "/.mozilla/firefox"

/-- `os.path.join(os.getenv("APPDATA"), "Mozilla\Firefox\Profiles")`
(the Python literal contains single backslashes). -/
def win_profile_root (appdata : String) : String :=
  appdata ++ "\\" ++ "Mozilla\\Firefox\\Profiles"

/-- The shared scan `for entry in os.listdir(...): if
entry.endswith(".default-release"): return os.path.join(...)`, followed by
`return None`.  `sep` is the platform path separator of `os.path.join`. -/
def findDefaultRelease (root sep : String) : List String → Option String
  | [] => none
  | e :: rest =>
    if strEndsWith e ".default-release" then some (root ++ sep ++ e)
    else findDefaultRelease root sep rest

/-- `__linux_default_firefox_profile_path`: raises `RuntimeError` when the
profile root does not exist, otherwise scans for the first
`.default-release` entry. -/
def linux_default_firefox_profile_path (w : World) : Except PyErr (Option String) :=
  let profile_path := linux_profile_root w.home
  if !w.dirExists then
    .error (.runtimeError ("Unable to retrieve " ++ profile_path ++ " directory"))
  else
    .ok (findDefaultRelease profile_path "/" w.profileListing)

/-- `__win_default_firefox_profile_path`: no existence check of its own, so
`os.listdir` raises `FileNotFoundError` when the directory is missing. -/
def win_default_firefox_profile_path (w : World) : Except PyErr (Option String) :=
  if !w.dirExists then .error .fileNotFoundError
  else .ok (findDefaultRelease (win_profile_root w.appdata) "\\" w.profileListing)

/-- `__get_default_firefox_profile`: platform dispatch; returns `""` on
unrecognized platforms. -/
def get_default_firefox_profile (w : World) : Except PyErr (Option String) :=
  match w.plat with
  | .windows => win_default_firefox_profile_path w
  | .linux => linux_default_firefox_profile_path w
  | .other => .ok (some "")

/-! ### `__get_firefox_options` -/

/-- A Firefox preference value as set by `options.set_preference`
(the source uses both string and boolean values). -/
inductive PrefVal where
  | s (v : String)
  | b (v : Bool)
deriving DecidableEq, Repr

/-- The subset of `selenium FirefoxOptions` state the source writes:
`options.profile`, `add_argument` and `set_preference`. -/
structure FirefoxOptions where
  profile : Option String
  arguments : List String
  preferences : List (String × PrefVal)
deriving DecidableEq, Repr

/-- `__get_firefox_options`: resolves `options.profile` (falling back to
`__get_default_firefox_profile()` when the argument is falsy — so the
fallback can itself raise), then applies the headless arguments and
preferences (reading `screeninfo.get_monitors()[0]`, which raises
`IndexError` when no monitor exists) and the private-mode preference. -/
def get_firefox_options (w : World) (firefox_profile : Option String)
    (headless private_mode : Bool) : Except PyErr FirefoxOptions := do
  let prof ←
    if pyFalsy firefox_profile then get_default_firefox_profile w
    else pure firefox_profile
  let base : FirefoxOptions := ⟨prof, [], []⟩
  let opts ←
    if headless then
      match w.monitors with
      | [] => Except.error .indexError
      | m :: _ =>
        pure { base with
          arguments := ["--headless",
            "--window-size=" ++ toString m.1 ++ "," ++ toString m.2,
            "--start-maximized"],
          preferences := [("media.volume_scale", .s "0.0"),
            ("browser.cache.disk.enable", .b false),
            ("browser.cache.memory.enable", .b false),
            ("browser.cache.offline.enable", .b false),
            ("network.http.use-cache", .b false)] }
    else pure base
  if private_mode then
    pure { opts with
      preferences := opts.preferences ++
        [("browser.privatebrowsing.autostart", .b true)] }
  else
    pure opts

/-! ### `SessionData` -/

/-- `@dataclass(frozen=True) class SessionData`: the cookie header string and
the browser user agent. -/
structure SessionData where
  cookie : String
  user_agent : String
deriving DecidableEq, Repr

/-- A field of the `SessionData` dataclass. -/
inductive SdField where
  | cookie
  | user_agent
deriving DecidableEq, Repr

/-- Attribute assignment on a `frozen=True` dataclass: the generated
`__setattr__` unconditionally raises `FrozenInstanceError`; the record is
never changed. -/
def SessionData.setattr (_sd : SessionData) (_f : SdField) (_v : String) :
    Except PyErr SessionData :=
  .error .frozenInstanceError

/-! ### `get_session_data` -/

/-- `__BASE_CHAT_URL` -/
def BASE_CHAT_URL : String := "https://claude.ai/chats"

/-- The error raised by `raise RuntimeError("Cannot retrieve UserAgent...")`
when the page reports an empty or missing user agent (the spec's
`EmptyUserAgentError`). -/
def EmptyUserAgentError : PyErr := .runtimeError "Cannot retrieve UserAgent..."

/-- The outcome of one call to `get_session_data`: the returned value or the
propagated exception (the declared Python return type is
`SessionData | None`, hence the inner `Option`), whether the driver was
constructed, whether `driver.quit()` ran (always before the result is
produced), the `options.profile` handed to the driver constructor when a
launch was attempted, and the temp-root listing after the call. -/
structure GsdResult where
  result : Except PyErr (Option SessionData)
  driverConstructed : Bool
  quitCalled : Bool
  launchProfile : Option (Option String)
  tempAfter : List Entry
deriving DecidableEq, Repr

/-- The `try` block of `get_session_data` (`driver.get`, the 3-second
`implicitly_wait`, the user-agent check, cookie harvesting) as the value it
returns or the exception it raises.  A navigation failure is modelled by
`w.getOk = false`. -/
def gsd_try_block (w : World) : Except PyErr (Option SessionData) :=
  if !w.getOk then .error (.webDriverError "navigation")
  else if pyFalsy w.userAgent then .error EmptyUserAgentError
  else
    let cookie_string := String.intercalate "; "
      (w.cookies.map (fun cookie => cookie.1 ++ "=" ++ cookie.2))
    .ok (some ⟨cookie_string, w.userAgent.getD ""⟩)

/-- The body of `get_session_data` after the profile fallback, given the
resolved profile value: first `__cleanup_resources()` (its `OSError`
propagates), option construction, driver launch, then the `try` block whose
`finally` always runs `driver.quit()` and a second `__cleanup_resources()` —
an `OSError` raised by that second cleanup replaces the `try` outcome, per
Python `finally` semantics. -/
def gsd_after_profile (w : World) (prof : Option String) : GsdResult :=
  let fails := fun n => w.rmFails.contains n
  let c1 := cleanup_resources w.plat fails w.tempEntries
  match c1.1 with
  | some n => ⟨.error (.osError n), false, false, none, c1.2⟩
  | none =>
    match get_firefox_options w prof true false with
    | .error e => ⟨.error e, false, false, none, c1.2⟩
    | .ok opts =>
      if !w.launchOk then
        ⟨.error (.webDriverError "launch"), false, false, some opts.profile, c1.2⟩
      else
        let c2 := cleanup_resources w.plat fails c1.2
        let finalRes : Except PyErr (Option SessionData) :=
          match c2.1 with
          | some n => .error (.osError n)
          | none => gsd_try_block w
        ⟨finalRes, true, true, some opts.profile, c2.2⟩

/-- `get_session_data(profile, quiet)`: the profile fallback to
`__get_default_firefox_profile()` (which may raise), the informational
`print` (console only, not modelled), then the rest of the body. -/
def get_session_data (w : World) (profile : String) (_quiet : Bool) : GsdResult :=
  match (if strFalsy profile then get_default_firefox_profile w
         else .ok (some profile)) with
  | .error e => ⟨.error e, false, false, none, w.tempEntries⟩
  | .ok prof => gsd_after_profile w prof

/-! ### Concrete environments used by witnesses and counterexamples -/

/-- A fully healthy environment: profile present, monitors available, launch
and navigation succeed, non-empty user agent, two cookies. -/
def wOk : World :=
  { plat := .linux, dirExists := true, profileListing := ["p1.default-release"],
    tempEntries := [⟨"tmpA", true⟩, ⟨"keep", true⟩, ⟨"tmpfile", false⟩],
    rmFails := [], monitors := [(1920, 1080)], launchOk := true, getOk := true,
    userAgent := some "UA1", cookies := [("a", "1"), ("b", "2")],
    home := "/home/u", appdata := "C:\\A" }

/-- A world whose profile parent directory is missing. -/
def wNoDir : World :=
  { plat := .linux, dirExists := false, profileListing := [],
    tempEntries := [], rmFails := [], monitors := [], launchOk := false,
    getOk := false, userAgent := none, cookies := [],
    home := "/home/u", appdata := "C:\\A" }

/-- A world in which removing the matching temp directory `tmpA` raises
`OSError` while a second matching directory `rust_mozprB` follows it. -/
def wRmFail : World :=
  { plat := .linux, dirExists := true, profileListing := [],
    tempEntries := [⟨"tmpA", true⟩, ⟨"rust_mozprB", true⟩],
    rmFails := ["tmpA"], monitors := [(1920, 1080)], launchOk := true,
    getOk := true, userAgent := some "UA", cookies := [],
    home := "/h", appdata := "A" }

/-- A world whose profile directory exists but contains no
`.default-release` entry, with an otherwise healthy browser environment. -/
def wNoMatch : World :=
  { plat := .linux, dirExists := true, profileListing := ["abc", "x.default"],
    tempEntries := [], rmFails := [], monitors := [(1024, 768)],
    launchOk := true, getOk := true, userAgent := some "UA2",
    cookies := [("s", "t")], home := "/home/u", appdata := "C:\\A" }

/-- The spec's description of the cookie string: the `name=value` pairs
joined with `"; "`, in driver order. -/
def specCookieJoin : List (String × String) → String
  | [] => ""
  | [c] => c.1 ++ "=" ++ c.2
  | c :: c2 :: rest => c.1 ++ "=" ++ c.2 ++ "; " ++ specCookieJoin (c2 :: rest)

/-- The tail of a separator join: `sep ++ a` for each remaining element. -/
def joinTail (sep : String) : List String → String
  | [] => ""
  | a :: as => sep ++ a ++ joinTail sep as

/-! ## Helper lemmas -/

/-- When no removal fails, the cleanup loop removes exactly the directory
entries whose name matches a temp prefix and keeps everything else, in
order. -/
theorem cleanupList_of_no_failures (fails : String → Bool)
    (hf : ∀ n, fails n = false) (entries : List Entry) :
    cleanupList fails entries =
      (none, entries.filter (fun e => !(e.isDir && matchesTmpName e.name))) := by
  induction entries with
  | nil => rfl
  | cons e rest ih =>
    rw [cleanupList, List.filter_cons]
    cases h : e.isDir && matchesTmpName e.name with
    | true => simp [h, hf e.name, ih]
    | false => simp [h, ih]

/-- When no removal fails, `__cleanup_resources` raises nothing on any
platform. -/
theorem cleanup_resources_fst_none (plat : Platform) (fails : String → Bool)
    (hf : ∀ n, fails n = false) (entries : List Entry) :
    (cleanup_resources plat fails entries).1 = none := by
  cases plat <;>
    simp [cleanup_resources, cleanupList_of_no_failures fails hf entries]

/-- When the removal loop raises nothing, the surviving entries are exactly
the non-matching ones. -/
theorem cleanupList_snd_of_none (fails : String → Bool) (l : List Entry)
    (h : (cleanupList fails l).1 = none) :
    (cleanupList fails l).2 =
      l.filter (fun e => !(e.isDir && matchesTmpName e.name)) := by
  induction l with
  | nil => rfl
  | cons e rest ih =>
    simp only [cleanupList] at h ⊢
    cases hm : e.isDir && matchesTmpName e.name <;>
      simp only [hm, Bool.false_eq_true, if_false, if_true] at h ⊢
    · rw [List.filter_cons]
      simp only [hm, Bool.not_false, if_true]
      rw [ih h]
    · cases hfe : fails e.name <;>
        simp only [hfe, Bool.false_eq_true, if_false, if_true] at h ⊢
      · rw [List.filter_cons]
        simp only [hm, Bool.not_true, Bool.false_eq_true, if_false]
        exact ih h
      · exact absurd h (by simp)

/-- The removal loop does nothing on a listing that has no matching
directory left. -/
theorem cleanupList_filter_noop (fails : String → Bool) (l : List Entry) :
    cleanupList fails
        (l.filter (fun e => !(e.isDir && matchesTmpName e.name))) =
      (none, l.filter (fun e => !(e.isDir && matchesTmpName e.name))) := by
  induction l with
  | nil => rfl
  | cons e rest ih =>
    rw [List.filter_cons]
    cases hm : e.isDir && matchesTmpName e.name <;>
      simp only [hm, Bool.not_false, Bool.not_true, Bool.false_eq_true,
        if_false, if_true]
    · simp only [cleanupList, hm, Bool.false_eq_true, if_false, ih]
    · exact ih

/-- Once a cleanup pass has completed without raising, a second pass over
what it left behind finds no matching directory and cannot raise either. -/
theorem cleanup_resources_second_none (plat : Platform)
    (fails : String → Bool) (entries : List Entry)
    (h : (cleanup_resources plat fails entries).1 = none) :
    (cleanup_resources plat fails
      (cleanup_resources plat fails entries).2).1 = none := by
  cases plat
  case other => rfl
  case linux =>
    simp only [cleanup_resources] at h ⊢
    rw [cleanupList_snd_of_none fails entries h, cleanupList_filter_noop]
  case windows =>
    simp only [cleanup_resources] at h ⊢
    rw [cleanupList_snd_of_none fails entries h, cleanupList_filter_noop]

/-- On Linux the cleanup runs the removal loop on the temp-root listing. -/
theorem cleanup_resources_linux (fails : String → Bool) (entries : List Entry) :
    cleanup_resources Platform.linux fails entries = cleanupList fails entries := rfl

/-- On Windows the cleanup runs the removal loop on the temp-root listing. -/
theorem cleanup_resources_windows (fails : String → Bool) (entries : List Entry) :
    cleanup_resources Platform.windows fails entries = cleanupList fails entries := rfl

/-- The profile scan returns the first `.default-release` entry of the
listing (as `List.find?` computes it), joined to the root. -/
theorem findDefaultRelease_eq_find (root sep : String) (l : List String) :
    findDefaultRelease root sep l =
      (l.find? (fun e => strEndsWith e ".default-release")).map
        (fun e => root ++ sep ++ e) := by
  induction l with
  | nil => rfl
  | cons e rest ih =>
    rw [findDefaultRelease, List.find?]
    cases h : strEndsWith e ".default-release" <;> simp [h, ih]

/-! ## Claim theorems -/

/-- C8: for every temp-root state (with removals succeeding), cleanup
removes exactly the entries that are directories and whose name starts with
`"tmp"` or `"rust_mozpr"`; every other entry — non-matching directories and
all non-directory entries — is kept unchanged, in order.  Stated for both
platforms that reach the removal loop. -/
theorem cleanup_removes_exactly_matching_dirs (entries : List Entry) :
    cleanup_resources Platform.linux (fun _ => false) entries =
      (none, entries.filter (fun e =>
        !(e.isDir && (strStartsWith e.name "tmp" ||
          strStartsWith e.name "rust_mozpr")))) ∧
    cleanup_resources Platform.windows (fun _ => false) entries =
      (none, entries.filter (fun e =>
        !(e.isDir && (strStartsWith e.name "tmp" ||
          strStartsWith e.name "rust_mozpr")))) := by
  have hm : ∀ n, matchesTmpName n =
      (strStartsWith n "tmp" || strStartsWith n "rust_mozpr") := by
    intro n; simp [matchesTmpName, tmpDirNamePrefixes, List.any]
  refine ⟨?_, ?_⟩
  · rw [cleanup_resources_linux,
      cleanupList_of_no_failures (fun _ => false) (fun _ => rfl) entries]
    congr 1
    apply List.filter_congr
    intro e _
    rw [hm]
  · rw [cleanup_resources_windows,
      cleanupList_of_no_failures (fun _ => false) (fun _ => rfl) entries]
    congr 1
    apply List.filter_congr
    intro e _
    rw [hm]

/-- C7: on a platform other than Windows and Linux, profile discovery
returns the "no default" result (the empty string, as the source returns
`""`) and resource cleanup returns immediately, leaving the temp root
untouched; neither operation raises. -/
theorem other_platform_no_default_and_noop (w : World) (fails : String → Bool)
    (hplat : w.plat = Platform.other) :
    cleanup_resources w.plat fails w.tempEntries = (none, w.tempEntries) ∧
    get_default_firefox_profile w = .ok (some "") := by
  rw [hplat]
  exact ⟨rfl, by rw [get_default_firefox_profile, hplat]⟩

/-- C7 witness. -/
theorem other_platform_no_default_and_noop_witness :
    cleanup_resources Platform.other (fun _ => false)
        [⟨"tmpA", true⟩] = (none, [⟨"tmpA", true⟩]) ∧
    get_default_firefox_profile
        { plat := .other, dirExists := false, profileListing := [],
          tempEntries := [⟨"tmpA", true⟩], rmFails := [], monitors := [],
          launchOk := false, getOk := false, userAgent := none, cookies := [],
          home := "/h", appdata := "A" } = .ok (some "") :=
  other_platform_no_default_and_noop
    { plat := .other, dirExists := false, profileListing := [],
      tempEntries := [⟨"tmpA", true⟩], rmFails := [], monitors := [],
      launchOk := false, getOk := false, userAgent := none, cookies := [],
      home := "/h", appdata := "A" }
    (fun _ => false) rfl

/-- C4: whenever the profile parent directory exists and its listing has a
first entry ending in `.default-release`, discovery (on both platforms)
returns the parent path joined with that first matching entry. -/
theorem discovery_returns_first_default_release (w : World) (e : String)
    (hex : w.dirExists = true)
    (hfirst : w.profileListing.find?
        (fun s => strEndsWith s ".default-release") = some e) :
    linux_default_firefox_profile_path w =
      .ok (some (linux_profile_root w.home ++ "/" ++ e)) ∧
    win_default_firefox_profile_path w =
      .ok (some (win_profile_root w.appdata ++ "\\" ++ e)) := by
  rw [linux_default_firefox_profile_path, win_default_firefox_profile_path]
  simp [hex, findDefaultRelease_eq_find, hfirst]

/-- C4 witness. -/
theorem discovery_returns_first_default_release_witness :
    linux_default_firefox_profile_path
        { plat := .linux, dirExists := true,
          profileListing := ["x", "a.default-release", "b.default-release"],
          tempEntries := [], rmFails := [], monitors := [], launchOk := false,
          getOk := false, userAgent := none, cookies := [],
          home := "/home/u", appdata := "C:\\A" } =
      .ok (some "/home/u/.mozilla/firefox/a.default-release") :=
  (discovery_returns_first_default_release
    { plat := .linux, dirExists := true,
      profileListing := ["x", "a.default-release", "b.default-release"],
      tempEntries := [], rmFails := [], monitors := [], launchOk := false,
      getOk := false, userAgent := none, cookies := [],
      home := "/home/u", appdata := "C:\\A" }
    "a.default-release" rfl (by decide)).1

/-- C5 counterexample: with the profile parent directory missing, discovery
does not return `None` — it raises (`RuntimeError` on Linux,
`FileNotFoundError` from `os.listdir` on Windows). -/
theorem discovery_missing_dir_raises :
    linux_default_firefox_profile_path wNoDir =
      .error (.runtimeError
        "Unable to retrieve /home/u/.mozilla/firefox directory") ∧
    win_default_firefox_profile_path wNoDir = .error .fileNotFoundError ∧
    linux_default_firefox_profile_path wNoDir ≠ .ok none := by decide

/-- C5 amended: when the listing has no `.default-release` entry, discovery
returns absent if the parent directory exists, and raises (`RuntimeError` on
Linux, `FileNotFoundError` on Windows) if it does not. -/
theorem discovery_no_match_absent (w : World)
    (hnone : w.profileListing.find?
        (fun s => strEndsWith s ".default-release") = none) :
    linux_default_firefox_profile_path w =
      (if w.dirExists then .ok none
       else .error (.runtimeError
         ("Unable to retrieve " ++ linux_profile_root w.home ++ " directory"))) ∧
    win_default_firefox_profile_path w =
      (if w.dirExists then .ok none else .error .fileNotFoundError) := by
  rw [linux_default_firefox_profile_path, win_default_firefox_profile_path]
  cases hd : w.dirExists <;>
    simp [hd, findDefaultRelease_eq_find, hnone]

/-- C5 amended witness. -/
theorem discovery_no_match_absent_witness :
    linux_default_firefox_profile_path
        { wNoDir with dirExists := true, profileListing := ["abc", "x.default"] } =
      .ok none :=
  by
    have h := (discovery_no_match_absent
      { wNoDir with dirExists := true, profileListing := ["abc", "x.default"] }
      (by decide)).1
    simpa using h

/-- C9: the source has no `try` around `shutil.rmtree`, so when removal of
the matching directory `tmpA` raises `OSError`, the cleanup loop aborts —
the later matching directory `rust_mozprB` is never removed — and the
`OSError` propagates out of `get_session_data` to its caller. -/
theorem cleanup_failure_aborts_and_propagates :
    (get_session_data wRmFail "p" true).result = .error (.osError "tmpA") ∧
    (get_session_data wRmFail "p" true).tempAfter =
      [⟨"tmpA", true⟩, ⟨"rust_mozprB", true⟩] ∧
    (get_session_data wRmFail "p" true).driverConstructed = false := by decide

/-! ## The cookie-join characterization (C1) -/

/-- The accumulator loop of `String.intercalate` appends the join tail. -/
theorem intercalate_go_eq_append (sep : String) (l : List String) :
    ∀ acc : String, String.intercalate.go acc sep l = acc ++ joinTail sep l := by
  induction l with
  | nil =>
    intro acc
    rw [String.intercalate.go, joinTail, String.append_empty]
  | cons a as ih =>
    intro acc
    rw [String.intercalate.go, joinTail, ih]
    simp [String.append_assoc]

/-- `specCookieJoin` unfolded one step through the join tail. -/
theorem specCookieJoin_cons (c : String × String) (rest : List (String × String)) :
    specCookieJoin (c :: rest) =
      c.1 ++ "=" ++ c.2 ++
        joinTail "; " (rest.map (fun k => k.1 ++ "=" ++ k.2)) := by
  induction rest generalizing c with
  | nil => simp [specCookieJoin, joinTail, String.append_empty]
  | cons c2 rest2 ih =>
    simp only [specCookieJoin, List.map_cons, joinTail, ih c2]
    simp [String.append_assoc]

/-- The cookie string the source computes with `"; ".join(...)` is exactly
the spec's join of the `name=value` pairs in driver order. -/
theorem intercalate_pairs_eq_specCookieJoin (l : List (String × String)) :
    String.intercalate "; " (l.map (fun c => c.1 ++ "=" ++ c.2)) =
      specCookieJoin l := by
  cases l with
  | nil => rfl
  | cons c rest =>
    rw [List.map_cons, String.intercalate, intercalate_go_eq_append,
      specCookieJoin_cons]

/-! ## Branch analysis of the retrieval body -/

/-- Every exit path of the body constructs the driver exactly when it also
quits it: in the source the `finally` clause runs `driver.quit()` on each
path entered after the driver constructor succeeded. -/
theorem gsd_after_profile_dc_eq_qc (w : World) (prof : Option String) :
    (gsd_after_profile w prof).driverConstructed =
      (gsd_after_profile w prof).quitCalled := by
  simp only [gsd_after_profile]
  rcases hc1 : (cleanup_resources w.plat (fun n => w.rmFails.contains n)
      w.tempEntries).1 with _ | n <;> simp only
  rcases hopt : get_firefox_options w prof true false with e | opts <;>
    simp only
  cases hlo : w.launchOk <;> simp only [Bool.not_true, Bool.not_false,
    Bool.false_eq_true, if_true, if_false]

/-- Any successful body run returns precisely the record built from the
driver's cookies and user agent. -/
theorem gsd_after_profile_ok (w : World) (prof : Option String)
    (v : Option SessionData)
    (h : (gsd_after_profile w prof).result = .ok v) :
    v = some ⟨String.intercalate "; "
        (w.cookies.map (fun c => c.1 ++ "=" ++ c.2)), w.userAgent.getD ""⟩ := by
  simp only [gsd_after_profile] at h
  rcases hc1 : (cleanup_resources w.plat (fun n => w.rmFails.contains n)
      w.tempEntries).1 with _ | n <;> rw [hc1] at h <;> simp only at h
  case some => simp at h
  rcases hopt : get_firefox_options w prof true false with e | opts <;>
    rw [hopt] at h <;> simp only at h
  case error => simp at h
  cases hlo : w.launchOk <;> rw [hlo] at h <;> simp only [Bool.not_true,
    Bool.not_false, Bool.false_eq_true, if_true, if_false] at h
  case false => simp at h
  rcases hc2 : (cleanup_resources w.plat (fun n => w.rmFails.contains n)
      ((cleanup_resources w.plat (fun n => w.rmFails.contains n)
        w.tempEntries).2)).1 with _ | n <;> rw [hc2] at h <;> simp only at h
  case some => simp at h
  simp only [gsd_try_block] at h
  cases hg : w.getOk <;> rw [hg] at h <;> simp only [Bool.not_true,
    Bool.not_false, Bool.false_eq_true, if_true, if_false] at h
  case false => simp at h
  cases hua : pyFalsy w.userAgent <;> rw [hua] at h <;>
    simp only [Bool.false_eq_true, if_true, if_false] at h
  case true => simp at h
  simp at h
  exact h.symm

/-- When the driver was constructed, navigation succeeded and the page
reported a falsy user agent, the body raises exactly the empty-user-agent
`RuntimeError`: a driver construction implies the first cleanup pass
completed, after which the `finally`-block cleanup finds no matching
directory and cannot raise. -/
theorem gsd_after_profile_empty_ua (w : World) (prof : Option String)
    (hg : w.getOk = true) (hua : pyFalsy w.userAgent = true) :
    (gsd_after_profile w prof).driverConstructed = true →
    (gsd_after_profile w prof).result = .error EmptyUserAgentError := by
  simp only [gsd_after_profile]
  rcases hc1 : (cleanup_resources w.plat (fun n => w.rmFails.contains n)
      w.tempEntries).1 with _ | n <;> simp only
  case some =>
    intro hc
    exact absurd hc (by simp)
  case none =>
    rcases hopt : get_firefox_options w prof true false with e | opts <;>
      simp only
    · intro hc
      exact absurd hc (by simp)
    · cases hlo : w.launchOk <;> simp only [Bool.not_true, Bool.not_false,
        Bool.false_eq_true, if_true, if_false]
      · intro hc
        exact absurd hc (by simp)
      · intro _
        rw [cleanup_resources_second_none w.plat
          (fun n => w.rmFails.contains n) w.tempEntries hc1]
        simp only [gsd_try_block, hg, hua, Bool.not_true, Bool.false_eq_true,
          if_false, if_true]

/-- C2: whenever the browser driver is successfully constructed,
`driver.quit()` is performed on every exit path — whether the call returns a
`SessionData` or propagates an error — and (by the order of operations in
the model) before the result or error is handed to the caller. -/
theorem gsd_quit_on_every_exit_path (w : World) (profile : String)
    (quiet : Bool)
    (h : (get_session_data w profile quiet).driverConstructed = true) :
    (get_session_data w profile quiet).quitCalled = true := by
  have hdq : (get_session_data w profile quiet).driverConstructed =
      (get_session_data w profile quiet).quitCalled := by
    unfold get_session_data
    rcases hpr : (if strFalsy profile then get_default_firefox_profile w
        else .ok (some profile)) with e | prof <;> simp only
    exact gsd_after_profile_dc_eq_qc w prof
  rw [← hdq]
  exact h

/-- C2 witness. -/
theorem gsd_quit_on_every_exit_path_witness :
    (get_session_data wOk "p" true).quitCalled = true :=
  gsd_quit_on_every_exit_path wOk "p" true (by decide)

/-- C3: when the driver was constructed, navigation succeeded and the page
reports an empty or missing user agent, the call fails with the
empty-user-agent error rather than returning a `SessionData`, and the driver
is quit before the error propagates. -/
theorem gsd_empty_user_agent_error (w : World) (profile : String)
    (quiet : Bool)
    (hc : (get_session_data w profile quiet).driverConstructed = true)
    (hg : w.getOk = true) (hua : pyFalsy w.userAgent = true) :
    (get_session_data w profile quiet).result = .error EmptyUserAgentError ∧
    (get_session_data w profile quiet).quitCalled = true := by
  have key : (get_session_data w profile quiet).driverConstructed = true →
      (get_session_data w profile quiet).result = .error EmptyUserAgentError ∧
      (get_session_data w profile quiet).quitCalled = true := by
    unfold get_session_data
    rcases hpr : (if strFalsy profile then get_default_firefox_profile w
        else .ok (some profile)) with e | prof <;> simp only
    · intro hx
      exact absurd hx (by simp)
    · intro hx
      exact ⟨gsd_after_profile_empty_ua w prof hg hua hx,
        by rw [← gsd_after_profile_dc_eq_qc w prof]; exact hx⟩
  exact key hc

/-- C3 witness. -/
theorem gsd_empty_user_agent_error_witness :
    (get_session_data { wOk with userAgent := some "" } "p" true).result =
      .error EmptyUserAgentError ∧
    (get_session_data { wOk with userAgent := some "" } "p" true).quitCalled =
      true :=
  gsd_empty_user_agent_error { wOk with userAgent := some "" } "p" true
    (by decide) rfl (by decide)

/-- C1: every successful call returns a cookie field equal to the
`name=value` pairs of the driver's cookie list joined with `"; "`, in
exactly the driver's order. -/
theorem gsd_cookie_is_joined_pairs (w : World) (profile : String)
    (quiet : Bool) (sd : SessionData)
    (h : (get_session_data w profile quiet).result = .ok (some sd)) :
    sd.cookie = specCookieJoin w.cookies := by
  have key : (get_session_data w profile quiet).result = .ok (some sd) →
      sd.cookie = specCookieJoin w.cookies := by
    unfold get_session_data
    rcases hpr : (if strFalsy profile then get_default_firefox_profile w
        else .ok (some profile)) with e | prof <;> simp only
    · intro hx
      simp at hx
    · intro hx
      have hv := gsd_after_profile_ok w prof (some sd) hx
      have hsd : sd = ⟨String.intercalate "; "
          (w.cookies.map (fun c => c.1 ++ "=" ++ c.2)),
          w.userAgent.getD ""⟩ := by
        simpa using hv
      rw [hsd]
      exact intercalate_pairs_eq_specCookieJoin w.cookies
  exact key h

/-- C1 witness. -/
theorem gsd_cookie_is_joined_pairs_witness :
    (⟨"a=1; b=2", "UA1"⟩ : SessionData).cookie = specCookieJoin wOk.cookies :=
  gsd_cookie_is_joined_pairs wOk "p" true ⟨"a=1; b=2", "UA1"⟩ (by decide)

/-- C10: a call that returns normally never returns `None` despite the
declared `SessionData | None` type — the value is the `SessionData` built
from the driver's cookies and user agent — and the `frozen=True` dataclass
admits no field mutation: every attribute assignment raises
`FrozenInstanceError`. -/
theorem gsd_success_is_populated_record (w : World) (profile : String)
    (quiet : Bool) (v : Option SessionData)
    (h : (get_session_data w profile quiet).result = .ok v) :
    v = some ⟨String.intercalate "; "
        (w.cookies.map (fun c => c.1 ++ "=" ++ c.2)), w.userAgent.getD ""⟩ ∧
    v ≠ none ∧
    (∀ (sd : SessionData) (f : SdField) (s : String),
      SessionData.setattr sd f s = .error .frozenInstanceError) := by
  have key : (get_session_data w profile quiet).result = .ok v →
      v = some ⟨String.intercalate "; "
        (w.cookies.map (fun c => c.1 ++ "=" ++ c.2)), w.userAgent.getD ""⟩ := by
    unfold get_session_data
    rcases hpr : (if strFalsy profile then get_default_firefox_profile w
        else .ok (some profile)) with e | prof <;> simp only
    · intro hx
      simp at hx
    · intro hx
      exact gsd_after_profile_ok w prof v hx
  have hv := key h
  refine ⟨hv, ?_, fun _ _ _ => rfl⟩
  rw [hv]
  simp

/-- The empty string is falsy in Python. -/
theorem strFalsy_empty : strFalsy "" = true := rfl

/-- `__get_firefox_options` with a falsy profile argument, headless mode and
at least one monitor: the profile falls back to whatever discovery returns,
and the headless arguments and preferences are set. -/
theorem get_firefox_options_headless_fallback (w : World) (fp : Option String)
    (hfp : pyFalsy fp = true) (res : Option String)
    (hdisc : get_default_firefox_profile w = .ok res)
    (m : Nat × Nat) (rest : List (Nat × Nat))
    (hmon : w.monitors = m :: rest) :
    get_firefox_options w fp true false = .ok
      ⟨res,
       ["--headless",
        "--window-size=" ++ toString m.1 ++ "," ++ toString m.2,
        "--start-maximized"],
       [("media.volume_scale", .s "0.0"),
        ("browser.cache.disk.enable", .b false),
        ("browser.cache.memory.enable", .b false),
        ("browser.cache.offline.enable", .b false),
        ("network.http.use-cache", .b false)]⟩ := by
  simp only [get_firefox_options, hfp, if_true, hdisc, hmon, Bind.bind,
    Except.bind, pure, Except.pure, Bool.false_eq_true, if_false]

/-- When discovery yields no profile and the environment is otherwise
healthy, the body still launches the browser, with `options.profile = None`. -/
theorem gsd_after_profile_none_launches (w : World)
    (hrm : w.rmFails = []) (hlaunch : w.launchOk = true)
    (hdisc : get_default_firefox_profile w = .ok none)
    (m : Nat × Nat) (rest : List (Nat × Nat))
    (hmon : w.monitors = m :: rest) :
    (gsd_after_profile w none).driverConstructed = true ∧
    (gsd_after_profile w none).launchProfile = some none := by
  have hf : ∀ n : String, w.rmFails.contains n = false := by
    intro n; rw [hrm]; rfl
  have h1 := cleanup_resources_fst_none w.plat
    (fun n => w.rmFails.contains n) hf w.tempEntries
  have hopt := get_firefox_options_headless_fallback w none rfl none hdisc
    m rest hmon
  simp only [gsd_after_profile]
  rw [h1]
  simp only
  rw [hopt]
  simp only
  rw [hlaunch]
  simp only [Bool.not_true, Bool.false_eq_true, if_false]
  exact ⟨trivial, trivial⟩

/-- C6 counterexample: with no profile supplied and a profile directory that
exists but contains no `.default-release` entry, the call does not fail with
a profile-resolution error — it launches the browser with an unresolved
(`None`) profile and returns normally. -/
theorem gsd_no_match_launches_anyway :
    (get_session_data wNoMatch "" true).driverConstructed = true ∧
    (get_session_data wNoMatch "" true).launchProfile = some none ∧
    (get_session_data wNoMatch "" true).result = .ok (some ⟨"s=t", "UA2"⟩) := by
  decide

/-- C6 amended: with no profile supplied (on Linux) and no `.default-release`
entry to discover, behaviour splits on the parent directory: if it is
missing, the call fails with the discovery `RuntimeError` before any browser
launch; if it exists, the call does not fail — it proceeds to launch the
browser with an unresolved (`None`) profile. -/
theorem gsd_profile_resolution_amended (w : World) (quiet : Bool)
    (hplat : w.plat = Platform.linux)
    (hnone : w.profileListing.find?
        (fun s => strEndsWith s ".default-release") = none)
    (hrm : w.rmFails = []) (hlaunch : w.launchOk = true)
    (m : Nat × Nat) (rest : List (Nat × Nat))
    (hmon : w.monitors = m :: rest) :
    if w.dirExists then
      (get_session_data w "" quiet).driverConstructed = true ∧
      (get_session_data w "" quiet).launchProfile = some none
    else
      (get_session_data w "" quiet).result =
        .error (.runtimeError ("Unable to retrieve " ++
          linux_profile_root w.home ++ " directory")) ∧
      (get_session_data w "" quiet).driverConstructed = false := by
  cases hd : w.dirExists
  case false =>
    have hdisc : get_default_firefox_profile w =
        .error (.runtimeError ("Unable to retrieve " ++
          linux_profile_root w.home ++ " directory")) := by
      simp only [get_default_firefox_profile, hplat,
        linux_default_firefox_profile_path, hd]
      simp
    simp only [hd, Bool.false_eq_true, if_false]
    simp only [get_session_data, strFalsy_empty, if_true, hdisc]
    exact ⟨trivial, trivial⟩
  case true =>
    have hdisc : get_default_firefox_profile w = .ok none := by
      simp only [get_default_firefox_profile, hplat,
        linux_default_firefox_profile_path, hd]
      simp [findDefaultRelease_eq_find, hnone]
    simp only [hd, if_true]
    simp only [get_session_data, strFalsy_empty, if_true, hdisc]
    exact gsd_after_profile_none_launches w hrm hlaunch hdisc m rest hmon

/-- C6 amended witness. -/
theorem gsd_profile_resolution_amended_witness :
    (get_session_data wNoMatch "" true).driverConstructed = true ∧
    (get_session_data wNoMatch "" true).launchProfile = some none := by
  have h := gsd_profile_resolution_amended wNoMatch true rfl (by decide)
    rfl rfl (1024, 768) [] rfl
  simpa using h

/-- C10 witness. -/
theorem gsd_success_is_populated_record_witness :
    some (⟨"a=1; b=2", "UA1"⟩ : SessionData) =
      some (⟨String.intercalate "; "
        (wOk.cookies.map (fun c => c.1 ++ "=" ++ c.2)),
        wOk.userAgent.getD ""⟩ : SessionData) ∧
    SessionData.setattr ⟨"a=1; b=2", "UA1"⟩ SdField.cookie "x" =
      .error .frozenInstanceError := by
  have h := gsd_success_is_populated_record wOk "p" true
    (some ⟨"a=1; b=2", "UA1"⟩) (by decide)
  exact ⟨h.1, h.2.2 ⟨"a=1; b=2", "UA1"⟩ SdField.cookie "x"⟩

end Session
